import Mathlib

/-!
Verification of the BaZi report generator frontend (src/frontend/scripts/app.js)
and the spec-described backend geocoding resolver.

Field values coming out of `FormData.get` are either a string or `null`
(`undefined` behaves identically in every validator, which tests falsiness
before any method call), so raw field values are embedded as `Option String`,
with `none` standing for `null`/`undefined`/a missing field.

JavaScript `new Date(dateStr)` is host-engine behaviour; the validators are
therefore parameterised by an abstract parse function
`parse : String → Option Int` returning the epoch-millisecond value (`none`
for an Invalid Date, i.e. NaN).  `jsParseDateOnly` below is a concrete,
executable model of the ECMAScript date-only format `YYYY-MM-DD`, used to
instantiate that parameter on concrete inputs.
-/

/-- Result object returned by each field validator in app.js:
`{ valid: false, message }` or `{ valid: true }` (no message field). -/
structure VResult where
  valid : Bool
  message : Option String
deriving Repr, DecidableEq

/-- The ECMAScript WhiteSpace/LineTerminator set trimmed by
`String.prototype.trim`. -/
def jsIsWhitespace (c : Char) : Bool :=
  c.toNat = 0x09 || c.toNat = 0x0A || c.toNat = 0x0B || c.toNat = 0x0C ||
  c.toNat = 0x0D || c.toNat = 0x20 || c.toNat = 0xA0 || c.toNat = 0x1680 ||
  (0x2000 ≤ c.toNat && c.toNat ≤ 0x200A) || c.toNat = 0x2028 ||
  c.toNat = 0x2029 || c.toNat = 0x202F || c.toNat = 0x205F ||
  c.toNat = 0x3000 || c.toNat = 0xFEFF

/-- Model of JavaScript `String.prototype.trim`: strip leading and trailing
ECMAScript whitespace. -/
def jsTrim (s : String) : String :=
  String.mk (((s.toList.dropWhile jsIsWhitespace).reverse.dropWhile jsIsWhitespace).reverse)

/-- Proleptic-Gregorian leap-year test. -/
def isLeapYear (y : Int) : Bool :=
  (y % 4 == 0 && y % 100 != 0) || y % 400 == 0

/-- Number of days in month `m` (1-12) of year `y`. -/
def daysInMonth (y : Int) (m : Nat) : Nat :=
  if m = 2 then (if isLeapYear y then 29 else 28)
  else if m = 4 ∨ m = 6 ∨ m = 9 ∨ m = 11 then 30
  else 31

/-- Days from the civil date `y-m-d` to 1970-01-01 (negative before the
epoch); the standard era-based civil-calendar algorithm. -/
def daysFromCivil (y : Int) (m d : Nat) : Int :=
  let y2 : Int := if m ≤ 2 then y - 1 else y
  let era : Int := (if 0 ≤ y2 then y2 else y2 - 399) / 400
  let yoe : Int := y2 - era * 400
  let mp : Int := if 2 < m then (m : Int) - 3 else (m : Int) + 9
  let doy : Int := (153 * mp + 2) / 5 + (d : Int) - 1
  let doe : Int := yoe * 365 + yoe / 4 - yoe / 100 + doy
  era * 146097 + doe - 719468

/-- Numeric value of a list of decimal digit characters. -/
def digitsVal (cs : List Char) : Nat :=
  cs.foldl (fun a c => a * 10 + (c.toNat - 48)) 0

/-- Model of the host JavaScript engine's parse of a date-only string in the
ECMAScript Date Time String Format `YYYY-MM-DD` (the format produced by an
`<input type="date">`): the epoch-millisecond value of midnight UTC on that
calendar day, or `none` (Invalid Date) when the string is not of that shape
or names a nonexistent calendar day. -/
def jsParseDateOnly (s : String) : Option Int :=
  match s.toList with
  | [y1, y2, y3, y4, h1, m1, m2, h2, d1, d2] =>
    if ([y1, y2, y3, y4, m1, m2, d1, d2].all Char.isDigit) ∧ h1 = '-' ∧ h2 = '-' then
      let y : Int := (digitsVal [y1, y2, y3, y4] : Int)
      let m : Nat := digitsVal [m1, m2]
      let d : Nat := digitsVal [d1, d2]
      if 1 ≤ m ∧ m ≤ 12 ∧ 1 ≤ d ∧ d ≤ daysInMonth y m then
        some (daysFromCivil y m d * 86400000)
      else none
    else none
  | _ => none

/-- Epoch milliseconds of `new Date('1900-01-01')`, the minimum-date bound in
validateDate (app.js line 45). -/
def minDateMs : Int := -2208988800000

/-- validateDate (app.js lines 36-63).  `parse` models the host engine's
`new Date(dateStr)` and `endOfTodayMs` models `today` after
`today.setHours(23, 59, 59, 999)`. -/
def validateDate (parse : String → Option Int) (endOfTodayMs : Int)
    (dateStr : Option String) : VResult :=
  match dateStr with
  | none => { valid := false, message := some "Birth date is required" }
  | some s =>
    if jsTrim s = "" then { valid := false, message := some "Birth date is required" }
    else
      match parse s with
      | none => { valid := false, message := some "Please enter a valid date" }
      | some d =>
        if endOfTodayMs < d then
          { valid := false, message := some "Birth date cannot be in the future" }
        else if d < minDateMs then
          { valid := false, message := some "Birth date must be after 1900" }
        else { valid := true, message := none }

/-- validateLocation (app.js lines 70-86). -/
def validateLocation (location : Option String) : VResult :=
  match location with
  | none => { valid := false, message := some "Birth location is required" }
  | some s =>
    if jsTrim s = "" then { valid := false, message := some "Birth location is required" }
    else
      let trimmed := jsTrim s
      if trimmed.length < 3 then
        { valid := false, message := some "Location must be at least 3 characters" }
      else if 100 < trimmed.length then
        { valid := false, message := some "Location is too long (max 100 characters)" }
      else { valid := true, message := none }

/-- validateTime (app.js lines 92-97). -/
def validateTime (timeStr : Option String) : VResult :=
  match timeStr with
  | none => { valid := false, message := some "Birth time is required" }
  | some s =>
    if jsTrim s = "" then { valid := false, message := some "Birth time is required" }
    else { valid := true, message := none }

/-- validateGender (app.js lines 104-114).  `!gender` is true for `null`,
`undefined` and the empty string. -/
def validateGender (gender : Option String) : VResult :=
  match gender with
  | none => { valid := false, message := some "Please select a gender" }
  | some g =>
    if g = "" then { valid := false, message := some "Please select a gender" }
    else if g ≠ "male" ∧ g ≠ "female" then
      { valid := false, message := some "Gender must be male or female" }
    else { valid := true, message := none }

/-- The `data` object assembled in the submit handler (app.js lines 162-167). -/
structure FormData where
  birth_date : Option String
  birth_time : Option String
  location : Option String
  gender : Option String
deriving Repr, DecidableEq

/-- Result of validateForm: `{ valid: boolean, errors: string[] }`. -/
structure FormResult where
  valid : Bool
  errors : List String
deriving Repr, DecidableEq

/-- The error-accumulation loop of validateForm (app.js lines 121-145): each
failing validator pushes its message, in the fixed order date, time,
location, gender. -/
def collectErrors (dateResult timeResult locationResult genderResult : VResult) :
    List String :=
  (if dateResult.valid then [] else dateResult.message.toList) ++
  (if timeResult.valid then [] else timeResult.message.toList) ++
  (if locationResult.valid then [] else locationResult.message.toList) ++
  (if genderResult.valid then [] else genderResult.message.toList)

/-- validateForm (app.js lines 120-151). -/
def validateForm (parse : String → Option Int) (endOfTodayMs : Int)
    (data : FormData) : FormResult :=
  let errors := collectErrors
    (validateDate parse endOfTodayMs data.birth_date)
    (validateTime data.birth_time)
    (validateLocation data.location)
    (validateGender data.gender)
  { valid := errors.isEmpty, errors := errors }

/-- JavaScript `a || b` specialised to an optional string left operand: an
absent or empty string falls through to the right operand. -/
def jsOrString (a : Option String) (b : String) : String :=
  match a with
  | some s => if s = "" then b else s
  | none => b

/-- The relevant part of a parsed fetch response: the HTTP status plus the
two JSON body fields the handler reads (`result.detail?.message` and
`result.error`). -/
structure FetchResponse where
  status : Nat
  detailMessage : Option String
  errorMessage : Option String
deriving Repr, DecidableEq

/-- Observable outcome of one run of the submit handler: whether the fetch to
/api/generate-report was issued, what error text (if any) was shown via
showError, and whether displayResults ran. -/
structure SubmitOutcome where
  fetched : Bool
  shownError : Option String
  displayedResults : Bool
deriving Repr, DecidableEq

/-- The form submit handler (app.js lines 156-212), shallowly embedded.  The
network is abstracted by `net`: `Except.error msg` models the fetch promise
rejecting or `response.json()` throwing with message `msg`, and `Except.ok r`
models a response whose JSON body parsed.  `response.ok` is, per the fetch
specification, status in [200, 299].  A thrown `Error` inside the try block is
caught by the catch block, which shows `error.message || 'Something went
wrong. Please try again.'`. -/
def submitHandler (parse : String → Option Int) (endOfTodayMs : Int)
    (data : FormData) (net : Except String FetchResponse) : SubmitOutcome :=
  let validation := validateForm parse endOfTodayMs data
  if !validation.valid then
    { fetched := false, shownError := some (validation.errors.headD ""),
      displayedResults := false }
  else
    match net with
    | Except.error msg =>
      { fetched := true,
        shownError := some (if msg = "" then "Something went wrong. Please try again." else msg),
        displayedResults := false }
    | Except.ok response =>
      if 200 ≤ response.status ∧ response.status ≤ 299 then
        { fetched := true, shownError := none, displayedResults := true }
      else if response.status = 429 then
        { fetched := true,
          shownError :=
            some "Rate limit exceeded. Please wait a few minutes before trying again.",
          displayedResults := false }
      else
        { fetched := true,
          shownError := some (jsOrString response.detailMessage
            (jsOrString response.errorMessage "Report generation failed")),
          displayedResults := false }

/-- Result of one geocoding resolution: timezone plus optional coordinates,
tagged when it is the UTC fallback rather than a genuine resolution. -/
structure GeoResult where
  timezone : String
  coordinates : Option (Int × Int)
  fallback : Bool
deriving Repr, DecidableEq

/-- Process-wide mutable state of the Geocoding Resolver: the in-memory
cache plus counters of outbound provider calls and rate-limiter
acquisitions. -/
structure GeoState where
  cache : List (String × GeoResult)
  outboundCalls : Nat
  limiterAcquisitions : Nat
deriving Repr, DecidableEq

/-- ASCII case fold, modelling the case-folding step of cache-key
normalization. -/
def jsToLower (s : String) : String :=
  String.mk (s.toList.map Char.toLower)

/-- Normalized cache key for a location text: trimmed then case-folded. -/
def normalizeLocation (s : String) : String :=
  jsToLower (jsTrim s)

/-- Modelled from the spec: the backend Geocoding Resolver (spec section 4.2)
is not present under src/ (only the backend README is), so `resolve` is built
from the spec's words: the cache is consulted under the normalized (trimmed,
case-folded) location text, and a hit is returned directly, bypassing the
rate limiter and issuing no outbound call; on a miss the resolver acquires
the shared rate limiter and issues one outbound provider call; a successful
resolution is cached indefinitely; on provider error or timeout
(`provider key = none`) it returns the UTC fallback result, tagged, without
failing. -/
def resolve (provider : String → Option GeoResult) (st : GeoState)
    (loc : String) : GeoResult × GeoState :=
  let key := normalizeLocation loc
  match st.cache.lookup key with
  | some r => (r, st)
  | none =>
    let st' := { st with outboundCalls := st.outboundCalls + 1,
                         limiterAcquisitions := st.limiterAcquisitions + 1 }
    match provider key with
    | some r => (r, { st' with cache := (key, r) :: st'.cache })
    | none => ({ timezone := "UTC", coordinates := none, fallback := true }, st')

/-- A validator result is normal when it is either a pass with no message or
a fail carrying a human-readable message: never anything else, and never an
exception. -/
def normalResult (r : VResult) : Prop :=
  (r.valid = true ∧ r.message = none) ∨ (r.valid = false ∧ ∃ m, r.message = some m)

/-- A 101-character location string, one character over the maximum. -/
def longLoc : String := String.mk (List.replicate 101 'a')

/-- A fully valid sample form submission. -/
def sampleForm : FormData :=
  { birth_date := some "1970-01-01", birth_time := some "12:00",
    location := some "Singapore", gender := some "male" }

/-- A geocoding provider that always resolves successfully. -/
def sgProvider : String → Option GeoResult :=
  fun _ => some { timezone := "Asia/Singapore", coordinates := some (1, 103),
                  fallback := false }

theorem validateDate_parsed (parse : String → Option Int) (eod : Int) (s : String)
    (d : Int) (hs : jsTrim s ≠ "") (hp : parse s = some d) :
    validateDate parse eod (some s) =
      if eod < d then { valid := false, message := some "Birth date cannot be in the future" }
      else if d < minDateMs then
        { valid := false, message := some "Birth date must be after 1900" }
      else { valid := true, message := none } := by
  simp [validateDate, hs, hp]

theorem validateDate_normal (parse : String → Option Int) (eod : Int)
    (dateStr : Option String) : normalResult (validateDate parse eod dateStr) := by
  rcases dateStr with _ | s
  · simp [validateDate, normalResult]
  · by_cases hs : jsTrim s = ""
    · simp [validateDate, hs, normalResult]
    · cases hp : parse s with
      | none => simp [validateDate, hs, hp, normalResult]
      | some d =>
        by_cases hf : eod < d
        · simp [validateDate, hs, hp, hf, normalResult]
        · by_cases hm : d < minDateMs <;>
            simp [validateDate, hs, hp, hf, hm, normalResult]

theorem validateTime_normal (timeStr : Option String) :
    normalResult (validateTime timeStr) := by
  rcases timeStr with _ | s
  · simp [validateTime, normalResult]
  · by_cases hs : jsTrim s = "" <;> simp [validateTime, hs, normalResult]

theorem validateLocation_normal (location : Option String) :
    normalResult (validateLocation location) := by
  rcases location with _ | s
  · simp [validateLocation, normalResult]
  · by_cases hs : jsTrim s = ""
    · simp [validateLocation, hs, normalResult]
    · by_cases h3 : (jsTrim s).length < 3
      · simp [validateLocation, hs, h3, normalResult]
      · by_cases h100 : 100 < (jsTrim s).length <;>
          simp [validateLocation, hs, h3, h100, normalResult]

theorem validateGender_normal (gender : Option String) :
    normalResult (validateGender gender) := by
  rcases gender with _ | g
  · simp [validateGender, normalResult]
  · by_cases h0 : g = ""
    · simp [validateGender, h0, normalResult]
    · by_cases hm : g ≠ "male" ∧ g ≠ "female" <;>
        simp [validateGender, h0, hm, normalResult]

theorem filterMap_cons_toList {α β : Type} (f : α → Option β) (a : α) (l : List α) :
    List.filterMap f (a :: l) = (f a).toList ++ List.filterMap f l := by
  cases h : f a <;> simp [List.filterMap_cons, h]

theorem collectErrors_eq_filterMap (dr tr lr gr : VResult) :
    collectErrors dr tr lr gr =
      List.filterMap (fun r => if r.valid then none else r.message) [dr, tr, lr, gr] := by
  simp only [filterMap_cons_toList, List.filterMap_nil, List.append_nil]
  cases hd : dr.valid <;> cases ht : tr.valid <;> cases hl : lr.valid <;>
    cases hg : gr.valid <;> simp [collectErrors, hd, ht, hl, hg]

theorem collectErrors_isEmpty_iff (dr tr lr gr : VResult)
    (h1 : normalResult dr) (h2 : normalResult tr) (h3 : normalResult lr)
    (h4 : normalResult gr) :
    (collectErrors dr tr lr gr).isEmpty = true ↔
      (dr.valid = true ∧ tr.valid = true ∧ lr.valid = true ∧ gr.valid = true) := by
  rcases h1 with ⟨hv1, hm1⟩ | ⟨hv1, m1, hm1⟩ <;>
  rcases h2 with ⟨hv2, hm2⟩ | ⟨hv2, m2, hm2⟩ <;>
  rcases h3 with ⟨hv3, hm3⟩ | ⟨hv3, m3, hm3⟩ <;>
  rcases h4 with ⟨hv4, hm4⟩ | ⟨hv4, m4, hm4⟩ <;>
    simp [collectErrors, hv1, hv2, hv3, hv4, hm1, hm2, hm3, hm4]

theorem validateDate_min_rejected_aux (parse : String → Option Int) (eod : Int)
    (s : String) (d : Int) (hs : jsTrim s ≠ "") (hp : parse s = some d)
    (hlt : d < minDateMs) (heod : minDateMs ≤ eod) :
    validateDate parse eod (some s) =
      { valid := false, message := some "Birth date must be after 1900" } := by
  rw [validateDate_parsed parse eod s d hs hp]
  have h1 : ¬ eod < d := by omega
  simp [h1, hlt]

/-- C1: validateForm returns pass/fail plus a message list: its result is
valid exactly when all four field validators (date, time, location, gender)
report valid, and its errors list contains exactly the message of each
failing field, in the fixed order date, time, location, gender. -/
theorem validateForm_per_field (parse : String → Option Int) (eod : Int)
    (data : FormData) :
    ((validateForm parse eod data).valid = true ↔
      ((validateDate parse eod data.birth_date).valid = true ∧
       (validateTime data.birth_time).valid = true ∧
       (validateLocation data.location).valid = true ∧
       (validateGender data.gender).valid = true)) ∧
    (validateForm parse eod data).errors =
      List.filterMap (fun r => if r.valid then none else r.message)
        [validateDate parse eod data.birth_date, validateTime data.birth_time,
         validateLocation data.location, validateGender data.gender] := by
  constructor
  · have h := collectErrors_isEmpty_iff
      (validateDate parse eod data.birth_date) (validateTime data.birth_time)
      (validateLocation data.location) (validateGender data.gender)
      (validateDate_normal parse eod data.birth_date)
      (validateTime_normal data.birth_time)
      (validateLocation_normal data.location)
      (validateGender_normal data.gender)
    simpa [validateForm] using h
  · simpa [validateForm] using collectErrors_eq_filterMap
      (validateDate parse eod data.birth_date) (validateTime data.birth_time)
      (validateLocation data.location) (validateGender data.gender)

/-- C5: for every input, including null/undefined (`none`), empty and
malformed strings, each field validator returns a normal result object (a
pass with no message or a fail with a message) — invalid input is a normal
return value, not an exception — and validateForm likewise returns a normal
result whose validity is exactly emptiness of its error list. -/
theorem validators_never_throw (parse : String → Option Int) (eod : Int)
    (d t l g : Option String) :
    normalResult (validateDate parse eod d) ∧ normalResult (validateTime t) ∧
    normalResult (validateLocation l) ∧ normalResult (validateGender g) ∧
    ((validateForm parse eod
        { birth_date := d, birth_time := t, location := l, gender := g }).valid = true ↔
      (validateForm parse eod
        { birth_date := d, birth_time := t, location := l, gender := g }).errors = []) := by
  refine ⟨validateDate_normal parse eod d, validateTime_normal t,
    validateLocation_normal l, validateGender_normal g, ?_⟩
  simp [validateForm]

/-- C2: every birth date string that parses to an instant strictly after the
end of the current day is rejected by validateDate. -/
theorem validateDate_rejects_future (parse : String → Option Int) (eod : Int)
    (s : String) (d : Int) (hp : parse s = some d) (hfut : eod < d) :
    (validateDate parse eod (some s)).valid = false := by
  by_cases hs : jsTrim s = ""
  · simp [validateDate, hs]
  · rw [validateDate_parsed parse eod s d hs hp]
    simp [hfut]

/-- C2 witness: with end-of-today at the epoch, the date 1970-01-02 parses
one day later and is rejected. -/
theorem validateDate_rejects_future_w :
    jsParseDateOnly "1970-01-02" = some 86400000 ∧ (0 : Int) < 86400000 ∧
    (validateDate jsParseDateOnly 0 (some "1970-01-02")).valid = false :=
  ⟨by decide, by decide,
    validateDate_rejects_future jsParseDateOnly 0 "1970-01-02" 86400000
      (by decide) (by decide)⟩

/-- C3: every birth date string that parses strictly before 1900-01-01 is
rejected by validateDate with the minimum-date message, whenever 1900-01-01
does not lie in the future. -/
theorem validateDate_rejects_pre1900 (parse : String → Option Int) (eod : Int)
    (s : String) (d : Int) (hs : jsTrim s ≠ "") (hp : parse s = some d)
    (hlt : d < minDateMs) (heod : minDateMs ≤ eod) :
    validateDate parse eod (some s) =
      { valid := false, message := some "Birth date must be after 1900" } :=
  validateDate_min_rejected_aux parse eod s d hs hp hlt heod

/-- C3 witness: 1899-12-31 parses one day before the minimum date and is
rejected with the minimum-date message. -/
theorem validateDate_rejects_pre1900_w :
    jsTrim "1899-12-31" ≠ "" ∧
    jsParseDateOnly "1899-12-31" = some (-2209075200000) ∧
    (-2209075200000 : Int) < minDateMs ∧ minDateMs ≤ (0 : Int) ∧
    validateDate jsParseDateOnly 0 (some "1899-12-31") =
      { valid := false, message := some "Birth date must be after 1900" } :=
  ⟨by decide, by decide, by decide, by decide,
    validateDate_rejects_pre1900 jsParseDateOnly 0 "1899-12-31" (-2209075200000)
      (by decide) (by decide) (by decide) (by decide)⟩

/-- C4: validateLocation rejects every location whose trimmed length is
under 3, accepts every location whose trimmed length lies in [3, 100], and
rejects every location whose trimmed length exceeds 100. -/
theorem validateLocation_length_rule (s : String) :
    ((jsTrim s).length < 3 → (validateLocation (some s)).valid = false) ∧
    (3 ≤ (jsTrim s).length ∧ (jsTrim s).length ≤ 100 →
      (validateLocation (some s)).valid = true) ∧
    (100 < (jsTrim s).length → (validateLocation (some s)).valid = false) := by
  by_cases hs : jsTrim s = ""
  · have h0 : (jsTrim s).length = 0 := by rw [hs]; rfl
    exact ⟨fun _ => by simp [validateLocation, hs], fun h => by omega, fun h => by omega⟩
  · refine ⟨fun h => ?_, fun h => ?_, fun h => ?_⟩
    · simp [validateLocation, hs, h]
    · have h3 : ¬ (jsTrim s).length < 3 := by omega
      have h100 : ¬ 100 < (jsTrim s).length := by omega
      simp [validateLocation, hs, h3, h100]
    · have h3 : ¬ (jsTrim s).length < 3 := by omega
      simp [validateLocation, hs, h3, h]

/-- C4 witness: a 2-character location is rejected, a 3-character location is
accepted, and a 101-character location is rejected. -/
theorem validateLocation_length_rule_w :
    ((jsTrim "ab").length < 3 ∧ (validateLocation (some "ab")).valid = false) ∧
    (3 ≤ (jsTrim "abc").length ∧ (jsTrim "abc").length ≤ 100 ∧
      (validateLocation (some "abc")).valid = true) ∧
    (100 < (jsTrim longLoc).length ∧ (validateLocation (some longLoc)).valid = false) :=
  ⟨⟨by decide, (validateLocation_length_rule "ab").1 (by decide)⟩,
   ⟨by decide, by decide, (validateLocation_length_rule "abc").2.1 ⟨by decide, by decide⟩⟩,
   ⟨by decide, (validateLocation_length_rule longLoc).2.2 (by decide)⟩⟩

/-- C9: validateDate accepts the boundary date 1900-01-01 itself — the
minimum-date comparison is strict — while the immediately preceding day
1899-12-31 is rejected with the message reading "Birth date must be after
1900"; so 1900-01-01 is the earliest accepted birth date. -/
theorem validateDate_accepts_1900_boundary (eod : Int) (heod : minDateMs ≤ eod) :
    validateDate jsParseDateOnly eod (some "1900-01-01") =
      { valid := true, message := none } ∧
    validateDate jsParseDateOnly eod (some "1899-12-31") =
      { valid := false, message := some "Birth date must be after 1900" } := by
  constructor
  · rw [validateDate_parsed jsParseDateOnly eod "1900-01-01" minDateMs
      (by decide) (by decide)]
    have h1 : ¬ eod < minDateMs := by omega
    have h2 : ¬ minDateMs < minDateMs := by omega
    simp [h1, h2]
  · exact validateDate_min_rejected_aux jsParseDateOnly eod "1899-12-31"
      (-2209075200000) (by decide) (by decide) (by decide) heod

/-- C9 witness: at end-of-today 0 (the epoch), 1900-01-01 is accepted and
1899-12-31 is rejected with the minimum-date message. -/
theorem validateDate_accepts_1900_boundary_w :
    minDateMs ≤ (0 : Int) ∧
    validateDate jsParseDateOnly 0 (some "1900-01-01") =
      { valid := true, message := none } ∧
    validateDate jsParseDateOnly 0 (some "1899-12-31") =
      { valid := false, message := some "Birth date must be after 1900" } :=
  ⟨by decide, (validateDate_accepts_1900_boundary 0 (by decide)).1,
    (validateDate_accepts_1900_boundary 0 (by decide)).2⟩

/-- C10: validateTime checks presence only: it accepts every time string
that is non-empty after trimming (parseable as a clock value or not) and
rejects exactly the missing and empty/whitespace-only inputs. -/
theorem validateTime_presence_only (t : String) :
    (jsTrim t ≠ "" → validateTime (some t) = { valid := true, message := none }) ∧
    (jsTrim t = "" → validateTime (some t) =
      { valid := false, message := some "Birth time is required" }) ∧
    validateTime none = { valid := false, message := some "Birth time is required" } := by
  refine ⟨fun h => ?_, fun h => ?_, rfl⟩
  · simp [validateTime, h]
  · simp [validateTime, h]

/-- C10 witness: the unparseable clock value "abc" is accepted, while the
whitespace-only string " " is rejected. -/
theorem validateTime_presence_only_w :
    (jsTrim "abc" ≠ "" ∧ validateTime (some "abc") = { valid := true, message := none }) ∧
    (jsTrim " " = "" ∧ validateTime (some " ") =
      { valid := false, message := some "Birth time is required" }) :=
  ⟨⟨by decide, (validateTime_presence_only "abc").1 (by decide)⟩,
   ⟨by decide, (validateTime_presence_only " ").2.1 (by decide)⟩⟩

/-- C6: whenever the submitted field values fail validation, the submit
handler shows the first validation error (the error list is non-empty) and
never issues the fetch to /api/generate-report, whatever the network would
have answered: validation always runs before network submission. -/
theorem submitHandler_invalid_no_fetch (parse : String → Option Int) (eod : Int)
    (data : FormData) (net : Except String FetchResponse)
    (h : (validateForm parse eod data).valid = false) :
    submitHandler parse eod data net =
      { fetched := false,
        shownError := some ((validateForm parse eod data).errors.headD ""),
        displayedResults := false } ∧
    (validateForm parse eod data).errors ≠ [] := by
  constructor
  · simp [submitHandler, h]
  · intro hnil
    have hv : (validateForm parse eod data).valid =
        ((validateForm parse eod data).errors).isEmpty := rfl
    rw [hnil] at hv
    simp [hv] at h

/-- C6 witness: an all-missing submission fails validation, so the handler
shows the first error (the date message) and issues no fetch, even though
the network stub would have answered. -/
theorem submitHandler_invalid_no_fetch_w :
    (validateForm jsParseDateOnly 0
      { birth_date := none, birth_time := none, location := none, gender := none }).valid
        = false ∧
    submitHandler jsParseDateOnly 0
      { birth_date := none, birth_time := none, location := none, gender := none }
      (Except.error "network unreachable") =
      { fetched := false, shownError := some "Birth date is required",
        displayedResults := false } :=
  ⟨by decide, by
    have h := (submitHandler_invalid_no_fetch jsParseDateOnly 0
      { birth_date := none, birth_time := none, location := none, gender := none }
      (Except.error "network unreachable") (by decide)).1
    rw [h]
    decide⟩

/-- C7: whenever validation passes and the backend responds with HTTP 429,
the handler surfaces the specific rate-limit message rather than a generic
failure, and displays no results for that request. -/
theorem submitHandler_429_rate_limit (parse : String → Option Int) (eod : Int)
    (data : FormData) (resp : FetchResponse)
    (hvalid : (validateForm parse eod data).valid = true)
    (hstatus : resp.status = 429) :
    submitHandler parse eod data (Except.ok resp) =
      { fetched := true,
        shownError :=
          some "Rate limit exceeded. Please wait a few minutes before trying again.",
        displayedResults := false } := by
  have hok : ¬ (200 ≤ resp.status ∧ resp.status ≤ 299) := by omega
  simp [submitHandler, hvalid, hok, hstatus]

/-- C7 witness: a valid submission answered with status 429 yields the
rate-limit message and no displayed results. -/
theorem submitHandler_429_rate_limit_w :
    (validateForm jsParseDateOnly 0 sampleForm).valid = true ∧
    submitHandler jsParseDateOnly 0 sampleForm
      (Except.ok { status := 429, detailMessage := none, errorMessage := none }) =
      { fetched := true,
        shownError :=
          some "Rate limit exceeded. Please wait a few minutes before trying again.",
        displayedResults := false } :=
  ⟨by decide,
    submitHandler_429_rate_limit jsParseDateOnly 0 sampleForm
      { status := 429, detailMessage := none, errorMessage := none }
      (by decide) rfl⟩

/-- C8: resolving the same normalized (trimmed, case-folded) location text
twice within one process issues at most one outbound geocoding call: when
the first resolution does not end in provider failure (only successful
resolutions are cached), the second resolution is served from the in-memory
cache and returns with the resolver state — in particular the rate-limiter
acquisition count and the outbound-call count — unchanged, so it bypasses
the rate limiter entirely. -/
theorem resolve_idempotent (provider : String → Option GeoResult) (st : GeoState)
    (loc1 loc2 : String)
    (hnorm : normalizeLocation loc1 = normalizeLocation loc2)
    (hsucc : provider (normalizeLocation loc1) ≠ none) :
    (∃ r, (resolve provider st loc1).2.cache.lookup (normalizeLocation loc2) = some r ∧
      resolve provider (resolve provider st loc1).2 loc2 =
        (r, (resolve provider st loc1).2)) ∧
    (resolve provider st loc1).2.outboundCalls ≤ st.outboundCalls + 1 := by
  cases hc : st.cache.lookup (normalizeLocation loc1) with
  | some r =>
    have h1 : resolve provider st loc1 = (r, st) := by
      simp [resolve, hc]
    refine ⟨⟨r, ?_, ?_⟩, ?_⟩
    · rw [h1, ← hnorm]
      exact hc
    · rw [h1]
      simp [resolve, ← hnorm, hc]
    · rw [h1]
      dsimp only
      omega
  | none =>
    cases hp : provider (normalizeLocation loc1) with
    | none => exact absurd hp hsucc
    | some r =>
      have h1 : resolve provider st loc1 =
          (r, { cache := (normalizeLocation loc1, r) :: st.cache,
                outboundCalls := st.outboundCalls + 1,
                limiterAcquisitions := st.limiterAcquisitions + 1 }) := by
        simp [resolve, hc, hp]
      refine ⟨⟨r, ?_, ?_⟩, ?_⟩
      · rw [h1, ← hnorm]
        simp [List.lookup]
      · rw [h1]
        simp [resolve, ← hnorm, List.lookup]
      · rw [h1]

/-- C8 witness: resolving "Singapore" and then " SINGAPORE " (same
normalized key) against an always-successful provider makes the second
resolution a cache hit that changes nothing. -/
theorem resolve_idempotent_w :
    normalizeLocation "Singapore" = normalizeLocation " SINGAPORE " ∧
    sgProvider (normalizeLocation "Singapore") ≠ none ∧
    ((∃ r, (resolve sgProvider ⟨[], 0, 0⟩ "Singapore").2.cache.lookup
        (normalizeLocation " SINGAPORE ") = some r ∧
      resolve sgProvider (resolve sgProvider ⟨[], 0, 0⟩ "Singapore").2 " SINGAPORE " =
        (r, (resolve sgProvider ⟨[], 0, 0⟩ "Singapore").2)) ∧
    (resolve sgProvider ⟨[], 0, 0⟩ "Singapore").2.outboundCalls ≤ 0 + 1) :=
  ⟨by decide, by decide,
    resolve_idempotent sgProvider ⟨[], 0, 0⟩ "Singapore" " SINGAPORE "
      (by decide) (by decide)⟩

